import Mathlib

/-!
A shallow embedding of the `nmrpc` repository's reconciliation core
(`src/networkcfg.rs` and `src/nmmgr.rs`) and proofs about it.

The external NetworkManager library (the `nm` crate) is modelled by a pure
settings-object state: the per-IP-version settings block of a connection with
its method tag, address entries, gateway and DNS list, together with the
mutating operations the source calls on it (`clear_addresses`, `clear_dns`,
`set_method`, `add_address`, `add_dns`, `set_gateway`) and the accessors
(`method`, `address(i)`, `gateway`, `dns(i)`).  libnm's `add_dns` and
`add_address` skip an entry that is already present; the method constants
`NM_SETTING_IP4_CONFIG_METHOD_MANUAL` and `NM_SETTING_IP6_CONFIG_METHOD_MANUAL`
are both the string "manual", and the two AUTO constants are both "auto", as
in the library headers.

Rust's `IpAddr` with its `FromStr`/`Display` is external library code; it is
modelled by an inductive with a faithful dotted-quad IPv4 parser (rejecting
leading zeros, empty fields and octets above 255, as Rust's does) and a
simplified colon-separated IPv6 form without `::` compression; no claim below
depends on the IPv6 string details.

`.parse().unwrap()` in the Rust read path aborts on a malformed string; this
is modelled as the `Except.error` outcome of `from_settings`.
-/

namespace Nmrpc

/-- The method-tag constants of libnm used by the source.  In the library
headers the v4 and the v6 constant carry the same string. -/
def SETTING_IP4_CONFIG_METHOD_MANUAL : String := "manual"

def SETTING_IP6_CONFIG_METHOD_MANUAL : String := "manual"

def SETTING_IP4_CONFIG_METHOD_AUTO : String := "auto"

def SETTING_IP6_CONFIG_METHOD_AUTO : String := "auto"

def SETTING_WIRED_SETTING_NAME : String := "802-3-ethernet"

/-- Model of Rust's `std::net::IpAddr`: a typed v4 or v6 address. -/
inductive IpAddr where
  | v4 (a b c d : Nat)
  | v6 (groups : List Nat)
deriving DecidableEq, Repr

/-- Split a character list at every occurrence of `sep` (the splitting the
Rust `FromStr` instances perform, over the string's characters). -/
def splitOnChar (sep : Char) : List Char → List (List Char)
  | [] => [[]]
  | c :: cs =>
    let rest := splitOnChar sep cs
    if c = sep then [] :: rest
    else
      match rest with
      | [] => [[c]]
      | g :: gs => (c :: g) :: gs

/-- The value of a decimal digit character. -/
def digitVal (c : Char) : Option Nat :=
  if '0' ≤ c ∧ c ≤ '9' then some (c.toNat - 48) else none

def charsToNatAux (acc : Nat) : List Char → Option Nat
  | [] => some acc
  | c :: cs =>
    match digitVal c with
    | some d => charsToNatAux (acc * 10 + d) cs
    | none => none

/-- The numeric value of a nonempty all-digit character list. -/
def charsToNat : List Char → Option Nat
  | [] => none
  | cs => charsToNatAux 0 cs

/-- One octet of a dotted-quad IPv4 string, as Rust's parser accepts it:
only digits, no leading zero (except "0" itself), value at most 255. -/
def parseOctet (cs : List Char) : Option Nat :=
  if cs.length > 1 ∧ cs.head? = some '0' then none
  else
    match charsToNat cs with
    | some n => if n ≤ 255 then some n else none
    | none => none

/-- Dotted-quad IPv4 parse, modelling `Ipv4Addr::from_str`. -/
def parseIPv4 (s : String) : Option IpAddr :=
  match (splitOnChar '.' s.data).mapM parseOctet with
  | some [a, b, c, d] => some (.v4 a b c d)
  | _ => none

/-- The value of a hexadecimal digit character. -/
def hexDigitVal (c : Char) : Option Nat :=
  if '0' ≤ c ∧ c ≤ '9' then some (c.toNat - 48)
  else if 'a' ≤ c ∧ c ≤ 'f' then some (c.toNat - 87)
  else if 'A' ≤ c ∧ c ≤ 'F' then some (c.toNat - 55)
  else none

/-- One 16-bit hexadecimal group of an IPv6 string. -/
def parseHexGroup (cs : List Char) : Option Nat :=
  if cs.length = 0 ∨ cs.length > 4 then none
  else (cs.mapM hexDigitVal).map (fun ds => ds.foldl (fun acc d => acc * 16 + d) 0)

/-- Simplified IPv6 parse: eight colon-separated hexadecimal groups, no `::`
compression (a conservative model of `Ipv6Addr::from_str`; no claim depends
on which v6 strings are accepted). -/
def parseIPv6 (s : String) : Option IpAddr :=
  match (splitOnChar ':' s.data).mapM parseHexGroup with
  | some gs => if gs.length = 8 then some (.v6 gs) else none
  | none => none

/-- Model of `s.parse::<IpAddr>()`: IPv4 form first, IPv6 form otherwise. -/
def parseIp (s : String) : Option IpAddr :=
  match parseIPv4 s with
  | some a => some a
  | none => parseIPv6 s

/-- Lower-case hexadecimal rendering of one IPv6 group. -/
def hexString (n : Nat) : String :=
  String.mk (Nat.toDigits 16 n)

def joinColon : List String → String
  | [] => ""
  | [s] => s
  | s :: rest => s ++ ":" ++ joinColon rest

/-- Model of `IpAddr`'s `Display` (v6 without `::` compression). -/
def ipToString : IpAddr → String
  | .v4 a b c d => toString a ++ "." ++ toString b ++ "." ++ toString c ++ "." ++ toString d
  | .v6 gs => joinColon (gs.map hexString)

/-- Is the address of the v4 family (`IpAddr::V4`)? -/
def IpAddr.isV4 : IpAddr → Bool
  | .v4 .. => true
  | .v6 .. => false

/-- `src/networkcfg.rs` — `IPConfig`: one IP version's configuration.
The Rust field `prefix` is called `prefixLen` here (`prefix` is reserved
in Lean). -/
structure IPConfig where
  address : IpAddr
  gateway : Option IpAddr
  dns : Option IpAddr
  prefixLen : Nat
deriving DecidableEq, Repr

/-- `src/networkcfg.rs` — `NetworkConfig`: name plus per-version configs. -/
structure NetworkConfig where
  name : String
  ipv4cfg : Option IPConfig
  ipv6cfg : Option IPConfig
deriving DecidableEq, Repr

/-- One entry of a settings object's address list (libnm `NMIPAddress`):
an address string (nullable in the binding) and a prefix length. -/
structure IPAddressEntry where
  address : Option String
  prefixLen : Nat
deriving DecidableEq, Repr

/-- The per-IP-version settings block of a connection (libnm
`NMSettingIPConfig`): method tag, address entries, gateway, DNS list. -/
structure SettingIPConfig where
  method : Option String
  addresses : List IPAddressEntry
  gateway : Option String
  dns : List String
deriving DecidableEq, Repr

/-- A freshly constructed settings object (`SettingIP4Config::new()` /
`SettingIP6Config::new()`): no method, no addresses, no gateway, no DNS. -/
def freshSetting : SettingIPConfig :=
  { method := none, addresses := [], gateway := none, dns := [] }

namespace SettingIPConfig

def clear_addresses (s : SettingIPConfig) : SettingIPConfig :=
  { s with addresses := [] }

def clear_dns (s : SettingIPConfig) : SettingIPConfig :=
  { s with dns := [] }

def set_method (s : SettingIPConfig) (m : Option String) : SettingIPConfig :=
  { s with method := m }

def set_gateway (s : SettingIPConfig) (g : Option String) : SettingIPConfig :=
  { s with gateway := g }

/-- libnm `add_address`: appends unless an equal entry is already present. -/
def add_address (s : SettingIPConfig) (a : IPAddressEntry) : SettingIPConfig :=
  if a ∈ s.addresses then s else { s with addresses := s.addresses ++ [a] }

/-- libnm `add_dns`: appends unless the server string is already present. -/
def add_dns (s : SettingIPConfig) (d : String) : SettingIPConfig :=
  if d ∈ s.dns then s else { s with dns := s.dns ++ [d] }

end SettingIPConfig

/-- The abort of `.parse().unwrap()` on a malformed address string during the
read path. -/
inductive ReadError where
  | malformedAddress
deriving DecidableEq, Repr

/-- `src/networkcfg.rs` lines 67–94 — `IPConfig::from_settings`.  Returns
`none` unless the method is the manual constant and a first address entry
with an address string exists; `.error` models the `unwrap` abort on a
string that fails to parse. -/
def from_settings (settings : SettingIPConfig) : Except ReadError (Option IPConfig) :=
  match settings.method with
  | some val =>
    if val = SETTING_IP4_CONFIG_METHOD_MANUAL then
      match settings.addresses.get? 0 with
      | some entry =>
        match entry.address with
        | some address =>
          match parseIp address with
          | some addr =>
            let gatewayParsed : Except ReadError (Option IpAddr) :=
              match settings.gateway with
              | some g =>
                match parseIp g with
                | some gw => .ok (some gw)
                | none => .error .malformedAddress
              | none => .ok none
            match gatewayParsed with
            | .ok gateway =>
              match settings.dns.get? 0 with
              | some d =>
                match parseIp d with
                | some dnsAddr =>
                  .ok (some { address := addr, prefixLen := entry.prefixLen,
                              gateway := gateway, dns := some dnsAddr })
                | none => .error .malformedAddress
              | none =>
                .ok (some { address := addr, prefixLen := entry.prefixLen,
                            gateway := gateway, dns := none })
            | .error e => .error e
          | none => .error .malformedAddress
        | none => .ok none
      | none => .ok none
    else .ok none
  | none => .ok none

/-- `src/networkcfg.rs` lines 129–153 — `NetworkConfig::set_manual`: clear
addresses and DNS, pick the family's manual method constant, add the one
address entry, then `add_dns` the gateway (as the source does) and the DNS
server when present. -/
def set_manual (nm_ipcfg : SettingIPConfig) (ipcfg : IPConfig) : SettingIPConfig :=
  let s := nm_ipcfg.clear_addresses
  let s := s.clear_dns
  let s :=
    match ipcfg.address with
    | .v4 .. => s.set_method (some SETTING_IP4_CONFIG_METHOD_MANUAL)
    | .v6 .. => s.set_method (some SETTING_IP6_CONFIG_METHOD_MANUAL)
  let s := s.add_address { address := some (ipToString ipcfg.address), prefixLen := ipcfg.prefixLen }
  let s :=
    match ipcfg.gateway with
    | some gateway => s.add_dns (ipToString gateway)
    | none => s
  match ipcfg.dns with
  | some dns => s.add_dns (ipToString dns)
  | none => s

/-- `src/networkcfg.rs` lines 156–166 — `NetworkConfig::set_dhcp`: clear
addresses, DNS and gateway, then set the version's auto method constant. -/
def set_dhcp (nm_ipcfg : SettingIPConfig) (version : Nat) : SettingIPConfig :=
  let s := nm_ipcfg.clear_addresses
  let s := s.clear_dns
  let s := s.set_gateway none
  if version = 4 then s.set_method (some SETTING_IP4_CONFIG_METHOD_AUTO)
  else s.set_method (some SETTING_IP6_CONFIG_METHOD_AUTO)

/-- A connection handle (`nm::RemoteConnection`) as the source uses it: the
optional per-version settings blocks reachable through `setting_ip4_config` /
`setting_ip6_config`; `add_setting` attaches a block according to the block's
own type. -/
structure RemoteConnection where
  ip4 : Option SettingIPConfig
  ip6 : Option SettingIPConfig
deriving DecidableEq, Repr

/-- The per-version slot of a connection selected by the caller of
`handle_manual` / `handle_dhcp`. -/
inductive Slot where
  | ip4
  | ip6
deriving DecidableEq, Repr

def RemoteConnection.slot (conn : RemoteConnection) : Slot → Option SettingIPConfig
  | .ip4 => conn.ip4
  | .ip6 => conn.ip6

def RemoteConnection.setSlot (conn : RemoteConnection) : Slot → SettingIPConfig → RemoteConnection
  | .ip4, s => { conn with ip4 := some s }
  | .ip6, s => { conn with ip6 := some s }

/-- `src/networkcfg.rs` lines 205–227 — `NetworkConfig::handle_manual`: if the
passed per-version settings object exists, mutate it in place; otherwise
construct a fresh `SettingIP4Config` or `SettingIP6Config` according to the
address family and attach it to the connection (`add_setting` files it under
the slot matching the constructed block's type). -/
def handle_manual (conn : RemoteConnection) (slot : Slot) (ipcfg : IPConfig) : RemoteConnection :=
  match conn.slot slot with
  | some nm_ipcfg => conn.setSlot slot (set_manual nm_ipcfg ipcfg)
  | none =>
    match ipcfg.address with
    | .v4 .. => conn.setSlot .ip4 (set_manual freshSetting ipcfg)
    | .v6 .. => conn.setSlot .ip6 (set_manual freshSetting ipcfg)

/-- `src/networkcfg.rs` lines 230–249 — `NetworkConfig::handle_dhcp`: if the
passed per-version settings object exists, reset it to DHCP in place;
otherwise construct a fresh block chosen by `version` and attach it. -/
def handle_dhcp (conn : RemoteConnection) (slot : Slot) (version : Nat) : RemoteConnection :=
  match conn.slot slot with
  | some nm_ipcfg => conn.setSlot slot (set_dhcp nm_ipcfg version)
  | none =>
    if version = 4 then conn.setSlot .ip4 (set_dhcp freshSetting version)
    else conn.setSlot .ip6 (set_dhcp freshSetting version)

/-- `src/networkcfg.rs` lines 172–184 — `NetworkConfig::handle_ipv4`: manual
when `ipv4cfg` is present, DHCP (version 4) otherwise, on the connection's
ip4 settings object. -/
def handle_ipv4 (cfg : NetworkConfig) (conn : RemoteConnection) : RemoteConnection :=
  match cfg.ipv4cfg with
  | some ipv4cfg => handle_manual conn .ip4 ipv4cfg
  | none => handle_dhcp conn .ip4 4

/-- `src/networkcfg.rs` lines 190–202 — `NetworkConfig::handle_ipv6`: manual
when `ipv6cfg` is present, DHCP (version 6) otherwise, on the connection's
ip6 settings object. -/
def handle_ipv6 (cfg : NetworkConfig) (conn : RemoteConnection) : RemoteConnection :=
  match cfg.ipv6cfg with
  | some ipv6cfg => handle_manual conn .ip6 ipv6cfg
  | none => handle_dhcp conn .ip6 6

/-- The external manager client as `save` sees it: the persisted connections
keyed by identifier (`connection_by_id`). -/
structure Client where
  connections : List (String × RemoteConnection)
deriving DecidableEq, Repr

def Client.connection_by_id (client : Client) (name : String) : Option RemoteConnection :=
  (client.connections.find? (fun p => p.fst = name)).map Prod.snd

/-- Replace the stored connection under `name` (the in-place mutation the
live handle performs, made explicit). -/
def Client.store (client : Client) (name : String) (conn : RemoteConnection) : Client :=
  { connections := client.connections.map (fun p => if p.fst = name then (p.fst, conn) else p) }

/-- Outcome of `NetworkConfig::save`: the resulting client state and how many
`commit_changes_future` calls were issued. -/
structure SaveResult where
  client : Client
  commits : Nat
deriving DecidableEq, Repr

/-- `src/networkcfg.rs` lines 117–125 — `NetworkConfig::save`: look the
connection up by id directly on a fresh client; when found, apply the v4
settings, then the v6 settings, then commit once; when absent, do nothing
and succeed. -/
def save (cfg : NetworkConfig) (client : Client) : SaveResult :=
  match client.connection_by_id cfg.name with
  | some connection =>
    let connection := handle_ipv4 cfg connection
    let connection := handle_ipv6 cfg connection
    { client := client.store cfg.name connection, commits := 1 }
  | none => { client := client, commits := 0 }

/-- A connection object under construction (`nm::SimpleConnection` with its
`SettingConnection` block, as `create_connection` fills it in). -/
structure SimpleConnection where
  ctype : Option String
  id : Option String
  autoconnect : Bool
  interface_name : Option String
deriving DecidableEq, Repr

/-- `src/nmmgr.rs` lines 72–82 — `MapNMManger::create_connection`: a wired
connection with the given id, autoconnect on, bound to the optional device. -/
def create_connection (conn_name : String) (device_name : Option String) : SimpleConnection :=
  { ctype := some SETTING_WIRED_SETTING_NAME
    id := some conn_name
    autoconnect := true
    interface_name := device_name }

/-- `src/nmmgr.rs` — `MapNMManger`: the name→device mapping (a `BTreeMap`,
modelled as its association list) and the connections created this session. -/
structure MapNMManger where
  map : List (String × String)
  created_ifaces : List String
deriving DecidableEq, Repr

def MapNMManger.contains_key (mgr : MapNMManger) (name : String) : Bool :=
  (mgr.map.find? (fun p => p.fst = name)).isSome

def MapNMManger.get (mgr : MapNMManger) (name : String) : Option String :=
  (mgr.map.find? (fun p => p.fst = name)).map Prod.snd

/-- `src/nmmgr.rs` lines 60–62 — `MapNMManger::is_created` (never called by
the rest of the source). -/
def MapNMManger.is_created (mgr : MapNMManger) (name : String) : Bool :=
  mgr.created_ifaces.contains name

/-- One call `connection_by_name` makes to the external manager. -/
inductive MgrOp where
  | clientNew
  | lookupConn (name : String)
  | addConnection (conn : SimpleConnection)
deriving DecidableEq, Repr

/-- The external manager's behaviour during one `connection_by_name` call:
what the first `connection_by_id` query returns, whether
`add_connection_future` succeeds, and what a re-query after the add returns. -/
structure ManagerWorld where
  existing : List (String × RemoteConnection)
  addOk : Bool
  afterAdd : List (String × RemoteConnection)
deriving DecidableEq, Repr

def ManagerWorld.lookup1 (w : ManagerWorld) (name : String) : Option RemoteConnection :=
  (w.existing.find? (fun p => p.fst = name)).map Prod.snd

def ManagerWorld.lookup2 (w : ManagerWorld) (name : String) : Option RemoteConnection :=
  (w.afterAdd.find? (fun p => p.fst = name)).map Prod.snd

/-- Result of `connection_by_name`: the returned value or error message, the
updated registry state, and the trace of manager calls issued. -/
structure ResolveResult where
  result : Except String RemoteConnection
  mgr : MapNMManger
  ops : List MgrOp
deriving Repr

/-- `src/nmmgr.rs` lines 87–112 — `MapNMManger::connection_by_name`: bail out
when the name is not a key of the mapping; otherwise create a client, query
by id, and on a miss submit a new wired connection, record the name in
`created_ifaces`, and re-query (bailing if the re-query still misses).
`w.addOk = false` models a failing `add_connection_future`, whose error the
`?` operator propagates before the name is recorded. -/
def connection_by_name (w : ManagerWorld) (mgr : MapNMManger) (name : String) : ResolveResult :=
  match mgr.contains_key name with
  | true =>
    match w.lookup1 name with
    | some connection =>
      { result := .ok connection, mgr := mgr, ops := [.clientNew, .lookupConn name] }
    | none =>
      let new_conn := create_connection name (mgr.get name)
      if w.addOk then
        let mgr' := { mgr with created_ifaces := mgr.created_ifaces ++ [name] }
        match w.lookup2 name with
        | some connection =>
          { result := .ok connection, mgr := mgr',
            ops := [.clientNew, .lookupConn name, .addConnection new_conn, .lookupConn name] }
        | none =>
          { result := .error ("Failed to get connection " ++ name), mgr := mgr',
            ops := [.clientNew, .lookupConn name, .addConnection new_conn, .lookupConn name] }
      else
        { result := .error "TransportFailure", mgr := mgr,
          ops := [.clientNew, .lookupConn name, .addConnection new_conn] }
  | false =>
    { result := .error ("Failed to get connection " ++ name), mgr := mgr, ops := [] }

/-- A system device as `get_ether_devices` sees it: its type and the
identifier its `Display` yields. -/
structure Device where
  dtype : String
  name : String
deriving DecidableEq, Repr

/-- Lexicographic comparison of character lists (Rust's `Ord` for `String`:
byte-wise on UTF-8, which coincides with code-point order). -/
def charListLe : List Char → List Char → Bool
  | [], _ => true
  | _ :: _, [] => false
  | a :: as, b :: bs => if a < b then true else if b < a then false else charListLe as bs

/-- The lexicographic string order `Vec::sort` uses. -/
def strLeRel (a b : String) : Prop := charListLe a.data b.data = true

instance : DecidableRel strLeRel := fun _ _ => instDecidableEqBool _ _

/-- `src/nmmgr.rs` lines 45–56 — `MapNMManger::get_ether_devices`: keep the
Ethernet-class devices' identifiers, then sort them.  Rust's stable
`Vec::sort` on `String` sorts by the lexicographic order; it is modelled by
insertion sort with that order (extensionally the same function: a sorted
permutation is unique once equal comparands are equal strings). -/
def get_ether_devices (devices : List Device) : List String :=
  List.insertionSort strLeRel
    (devices.filterMap (fun d => if d.dtype = "Ethernet" then some d.name else none))

/-- `src/nmmgr.rs` lines 35–42 — `MapNMManger::get_deafult_mapping` (name as
in the source): pair `eth0, eth1, …` with the sorted device identifiers.
The `BTreeMap` inserts are modelled as the association list of the inserted
pairs (all keys are distinct). -/
def get_deafult_mapping (devices : List Device) : List (String × String) :=
  (get_ether_devices devices).enum.map (fun p => ("eth" ++ toString p.fst, p.snd))

/-! Helper lemmas. -/

theorem add_dns_gateway (s : SettingIPConfig) (d : String) :
    (s.add_dns d).gateway = s.gateway := by
  unfold SettingIPConfig.add_dns
  split <;> rfl

theorem add_address_gateway (s : SettingIPConfig) (a : IPAddressEntry) :
    (s.add_address a).gateway = s.gateway := by
  unfold SettingIPConfig.add_address
  split <;> rfl

/-- The single address entry `set_manual` leaves in place. -/
theorem set_manual_addresses (s : SettingIPConfig) (ipcfg : IPConfig) :
    (set_manual s ipcfg).addresses =
      [{ address := some (ipToString ipcfg.address), prefixLen := ipcfg.prefixLen }] := by
  rcases ipcfg with ⟨addr, gw, dns, p⟩
  cases addr <;> cases gw <;> cases dns <;>
    simp [set_manual, SettingIPConfig.clear_addresses, SettingIPConfig.clear_dns,
      SettingIPConfig.set_method, SettingIPConfig.add_address, SettingIPConfig.add_dns] <;>
    (try (split <;> rfl))

/-- The method tag `set_manual` writes, by address family. -/
theorem set_manual_method (s : SettingIPConfig) (ipcfg : IPConfig) :
    (set_manual s ipcfg).method =
      some (if ipcfg.address.isV4 then SETTING_IP4_CONFIG_METHOD_MANUAL
            else SETTING_IP6_CONFIG_METHOD_MANUAL) := by
  rcases ipcfg with ⟨addr, gw, dns, p⟩
  cases addr <;> cases gw <;> cases dns <;>
    simp [set_manual, IpAddr.isV4, SettingIPConfig.clear_addresses, SettingIPConfig.clear_dns,
      SettingIPConfig.set_method, SettingIPConfig.add_address, SettingIPConfig.add_dns] <;>
    (try (split <;> rfl))

/-- The DNS list `set_manual` leaves in place: the gateway string (when a
gateway is configured) followed by the DNS string (when one is configured,
and not equal to the gateway string, which libnm's `add_dns` skips). -/
theorem set_manual_dns (s : SettingIPConfig) (ipcfg : IPConfig) :
    (set_manual s ipcfg).dns =
      match ipcfg.gateway, ipcfg.dns with
      | none, none => []
      | some gw, none => [ipToString gw]
      | none, some d => [ipToString d]
      | some gw, some d =>
        if ipToString d = ipToString gw then [ipToString gw]
        else [ipToString gw, ipToString d] := by
  rcases ipcfg with ⟨addr, gw, dns, p⟩
  cases addr <;> cases gw <;> cases dns <;>
    simp [set_manual, SettingIPConfig.clear_addresses, SettingIPConfig.clear_dns,
      SettingIPConfig.set_method, SettingIPConfig.add_address, SettingIPConfig.add_dns] <;>
    (try (split <;> rfl))

/-- The manual v4 endpoint configuration of the spec's scenario:
address 10.0.0.5/24, gateway 10.0.0.1, dns 8.8.8.8. -/
def exampleV4Cfg : IPConfig :=
  { address := .v4 10 0 0 5, prefixLen := 24,
    gateway := some (.v4 10 0 0 1), dns := some (.v4 8 8 8 8) }

/-- C1: evaluation of the manual write path at a fresh settings object and
the desired config 10.0.0.5/24 with gateway 10.0.0.1 and dns 8.8.8.8.
The method is the manual constant and the address list has exactly the one
desired entry, as claimed; but the DNS list holds the gateway string
followed by the DNS string (the source calls `add_dns` on the gateway,
`src/networkcfg.rs` line 147), and the gateway field stays unset —
contradicting the claimed DNS list `[desired.dns]` and the claimed
gateway field `desired.gateway`. -/
theorem set_manual_gateway_lands_in_dns :
    set_manual freshSetting exampleV4Cfg =
      { method := some SETTING_IP4_CONFIG_METHOD_MANUAL,
        addresses := [{ address := some "10.0.0.5", prefixLen := 24 }],
        gateway := none,
        dns := ["10.0.0.1", "8.8.8.8"] } := by
  decide

/-- C2: evaluation of apply-then-read at the spec's scenario config.  The
read-back of `apply(fresh, 4, Some {10.0.0.5/24, gw 10.0.0.1, dns 8.8.8.8})`
is `Some {address 10.0.0.5, prefix 24, gateway None, dns 10.0.0.1}` — not
the applied config (gateway is lost into the DNS list, whose head the read
then reports as the DNS server) — while the subsequent
`apply(..., None)`-then-read does return `None` as claimed. -/
theorem roundTrip_fails_on_gateway :
    from_settings (set_manual freshSetting exampleV4Cfg) =
      .ok (some { address := .v4 10 0 0 5, prefixLen := 24,
                  gateway := none, dns := some (.v4 10 0 0 1) }) ∧
    from_settings (set_dhcp (set_manual freshSetting exampleV4Cfg) 4) = .ok none :=
  ⟨rfl, rfl⟩

/-- C5: frame property of the manual write path — `set_manual` never writes
the settings object's gateway field, so it equals its prior value for every
prior state and every desired config (and the desired gateway, when present,
is never stored there). -/
theorem set_manual_preserves_gateway (nm_ipcfg : SettingIPConfig) (ipcfg : IPConfig) :
    (set_manual nm_ipcfg ipcfg).gateway = nm_ipcfg.gateway := by
  rcases ipcfg with ⟨addr, gw, dns, p⟩
  cases addr <;> cases gw <;> cases dns <;>
    simp [set_manual, SettingIPConfig.clear_addresses, SettingIPConfig.clear_dns,
      SettingIPConfig.set_method, SettingIPConfig.add_address, SettingIPConfig.add_dns] <;>
    (try (split <;> rfl))

/-- C6: DHCP reset — for every prior settings state, `set_dhcp` leaves an
empty address list, an empty DNS list, no gateway, and the version-correct
auto method constant (v4 auto for version 4, v6 auto otherwise), and the
same holds for the settings object `handle_dhcp` leaves on the connection
at the two call sites `(ip4, 4)` and `(ip6, 6)`, whether or not the
connection already carried one. -/
theorem dhcp_reset (s : SettingIPConfig) (conn : RemoteConnection) (version : Nat) :
    (set_dhcp s version =
      { method := some (if version = 4 then SETTING_IP4_CONFIG_METHOD_AUTO
                        else SETTING_IP6_CONFIG_METHOD_AUTO),
        addresses := [], gateway := none, dns := [] }) ∧
    (handle_dhcp conn .ip4 4).ip4 =
      some { method := some SETTING_IP4_CONFIG_METHOD_AUTO,
             addresses := [], gateway := none, dns := [] } ∧
    (handle_dhcp conn .ip6 6).ip6 =
      some { method := some SETTING_IP6_CONFIG_METHOD_AUTO,
             addresses := [], gateway := none, dns := [] } := by
  refine ⟨?_, ?_, ?_⟩
  · unfold set_dhcp
    split <;>
      simp_all [SettingIPConfig.clear_addresses, SettingIPConfig.clear_dns,
        SettingIPConfig.set_gateway, SettingIPConfig.set_method]
  · rcases conn with ⟨ip4, ip6⟩
    cases ip4 <;>
      simp [handle_dhcp, RemoteConnection.slot, RemoteConnection.setSlot, set_dhcp,
        SettingIPConfig.clear_addresses, SettingIPConfig.clear_dns,
        SettingIPConfig.set_gateway, SettingIPConfig.set_method]
  · rcases conn with ⟨ip4, ip6⟩
    cases ip6 <;>
      simp [handle_dhcp, RemoteConnection.slot, RemoteConnection.setSlot, set_dhcp,
        SettingIPConfig.clear_addresses, SettingIPConfig.clear_dns,
        SettingIPConfig.set_gateway, SettingIPConfig.set_method]

/-- C4: on the read path under the manual method, a string that fails to
parse as an IP address — the first address entry's string, the gateway
string, or the first DNS string — makes `from_settings` end in the
`malformedAddress` failure (the `unwrap` abort), never a silent default;
the manual-method settings object with no address entry is the case that
is instead reported as plain absence. -/
theorem read_malformed_propagates (s : SettingIPConfig)
    (hm : s.method = some SETTING_IP4_CONFIG_METHOD_MANUAL) :
    (∀ e a, s.addresses[0]? = some e → e.address = some a → parseIp a = none →
      from_settings s = .error .malformedAddress) ∧
    (∀ e a addr g, s.addresses[0]? = some e → e.address = some a → parseIp a = some addr →
      s.gateway = some g → parseIp g = none →
      from_settings s = .error .malformedAddress) ∧
    (∀ e a addr d, s.addresses[0]? = some e → e.address = some a → parseIp a = some addr →
      (s.gateway = none ∨ ∃ g gw, s.gateway = some g ∧ parseIp g = some gw) →
      s.dns[0]? = some d → parseIp d = none →
      from_settings s = .error .malformedAddress) ∧
    (s.addresses[0]? = none → from_settings s = .ok none) := by
  refine ⟨?_, ?_, ?_, ?_⟩
  · intro e a h1 h2 h3
    simp [from_settings, hm, h1, h2, h3]
  · intro e a addr g h1 h2 h3 hg hgp
    simp [from_settings, hm, h1, h2, h3, hg, hgp]
  · intro e a addr d h1 h2 h3 hgw hd hdp
    rcases hgw with hg | ⟨g, gw, hg, hgp⟩
    · simp [from_settings, hm, h1, h2, h3, hg, hd, hdp]
    · simp [from_settings, hm, h1, h2, h3, hg, hgp, hd, hdp]
  · intro h1
    simp [from_settings, hm, h1]

/-- A settings object whose method is manual but whose one address entry
holds a string that is not an IP address. -/
def malformedSetting : SettingIPConfig :=
  { method := some SETTING_IP4_CONFIG_METHOD_MANUAL,
    addresses := [{ address := some "not-an-ip", prefixLen := 24 }],
    gateway := none, dns := [] }

/-- Witness for C4 at a concrete settings object with an unparsable address
string: the read ends in the malformed-address failure. -/
theorem read_malformed_propagates_witness :
    from_settings malformedSetting = .error .malformedAddress :=
  (read_malformed_propagates malformedSetting rfl).1
    { address := some "not-an-ip", prefixLen := 24 } "not-an-ip" rfl rfl rfl

/-- C7: the read-path guard of `from_settings` — the result is `none`
whenever the method is unset or differs from the manual constant (the v4
and v6 manual constants being the same string, this is the version's manual
constant for either version), and also when the method is manual but there
is no address entry at index 0; and a `some` result can only arise when the
method is the manual constant and a first address entry exists. -/
theorem read_guard (s : SettingIPConfig) :
    SETTING_IP4_CONFIG_METHOD_MANUAL = SETTING_IP6_CONFIG_METHOD_MANUAL ∧
    (s.method = none → from_settings s = .ok none) ∧
    (∀ v, s.method = some v → v ≠ SETTING_IP4_CONFIG_METHOD_MANUAL →
      from_settings s = .ok none) ∧
    (s.method = some SETTING_IP4_CONFIG_METHOD_MANUAL → s.addresses[0]? = none →
      from_settings s = .ok none) ∧
    (∀ c, from_settings s = .ok (some c) →
      s.method = some SETTING_IP4_CONFIG_METHOD_MANUAL ∧
      ∃ e, s.addresses[0]? = some e) := by
  refine ⟨rfl, ?_, ?_, ?_, ?_⟩
  · intro hm
    simp [from_settings, hm]
  · intro v hm hv
    simp [from_settings, hm, hv]
  · intro hm h0
    simp [from_settings, hm, h0]
  · intro c h
    cases hm : s.method with
    | none => simp [from_settings, hm] at h
    | some v =>
      by_cases hv : v = SETTING_IP4_CONFIG_METHOD_MANUAL
      · subst hv
        cases h0 : s.addresses[0]? with
        | none => simp [from_settings, hm, h0] at h
        | some e => exact ⟨rfl, e, rfl⟩
      · simp [from_settings, hm, hv] at h

/-- Witness for C7 at concrete settings objects: a fresh (method-unset)
settings object reads back as absent, and so does a manual one with no
address entries. -/
theorem read_guard_witness :
    from_settings freshSetting = .ok none ∧
    from_settings { method := some SETTING_IP4_CONFIG_METHOD_MANUAL,
                    addresses := [], gateway := none, dns := [] } = .ok none :=
  ⟨(read_guard freshSetting).2.1 rfl,
   (read_guard { method := some SETTING_IP4_CONFIG_METHOD_MANUAL,
                 addresses := [], gateway := none, dns := [] }).2.2.2.1 rfl rfl⟩

end Nmrpc

namespace Nmrpc

/-- C8: unmapped lookup — when the registry's mapping lacks the key, the
resolve fails with the lookup error, issues no manager call at all (in
particular no connection-creation request), and leaves the registry state,
`created_ifaces` included, untouched. -/
theorem resolve_unmapped (w : ManagerWorld) (mgr : MapNMManger) (name : String)
    (h : mgr.contains_key name = false) :
    connection_by_name w mgr name =
      { result := .error ("Failed to get connection " ++ name), mgr := mgr, ops := [] } := by
  unfold connection_by_name
  rw [h]

/-- Witness for C8: resolving "eth9" against a registry with an empty
mapping fails without touching the manager. -/
theorem resolve_unmapped_witness :
    connection_by_name { existing := [], addOk := true, afterAdd := [] }
        { map := [], created_ifaces := [] } "eth9" =
      { result := .error ("Failed to get connection " ++ "eth9"),
        mgr := { map := [], created_ifaces := [] }, ops := [] } :=
  resolve_unmapped { existing := [], addOk := true, afterAdd := [] }
    { map := [], created_ifaces := [] } "eth9" rfl

/-- C10: noninterference of the session cache — two registries with the same
mapping but arbitrary `created_ifaces` contents make `connection_by_name`
perform the same sequence of manager operations, return the same result, and
keep the same mapping; the cache is appended to after a creation but never
read, so its contents never influence observable behaviour. -/
theorem resolve_ignores_created (w : ManagerWorld) (m1 m2 : MapNMManger) (name : String)
    (h : m1.map = m2.map) :
    (connection_by_name w m1 name).result = (connection_by_name w m2 name).result ∧
    (connection_by_name w m1 name).ops = (connection_by_name w m2 name).ops ∧
    (connection_by_name w m1 name).mgr.map = (connection_by_name w m2 name).mgr.map := by
  rcases m1 with ⟨map1, c1⟩
  rcases m2 with ⟨map2, c2⟩
  simp only at h
  subst h
  unfold connection_by_name MapNMManger.contains_key MapNMManger.get
  cases hf : (List.find? (fun p => p.fst = name) map1).isSome <;>
    cases hl : w.lookup1 name <;>
    cases ha : w.addOk <;>
    cases hl2 : w.lookup2 name <;>
    simp [hf, hl, ha, hl2]

/-- Witness for C10: two registries with the mapping `eth0 -> enp1s0`, one
with an empty session cache and one whose cache already holds "eth0",
observably behave the same on a resolve of "eth0". -/
theorem resolve_ignores_created_witness :
    (connection_by_name { existing := [], addOk := true, afterAdd := [] }
        { map := [("eth0", "enp1s0")], created_ifaces := [] } "eth0").result =
      (connection_by_name { existing := [], addOk := true, afterAdd := [] }
        { map := [("eth0", "enp1s0")], created_ifaces := ["eth0"] } "eth0").result ∧
    (connection_by_name { existing := [], addOk := true, afterAdd := [] }
        { map := [("eth0", "enp1s0")], created_ifaces := [] } "eth0").ops =
      (connection_by_name { existing := [], addOk := true, afterAdd := [] }
        { map := [("eth0", "enp1s0")], created_ifaces := ["eth0"] } "eth0").ops ∧
    (connection_by_name { existing := [], addOk := true, afterAdd := [] }
        { map := [("eth0", "enp1s0")], created_ifaces := [] } "eth0").mgr.map =
      (connection_by_name { existing := [], addOk := true, afterAdd := [] }
        { map := [("eth0", "enp1s0")], created_ifaces := ["eth0"] } "eth0").mgr.map :=
  resolve_ignores_created { existing := [], addOk := true, afterAdd := [] }
    { map := [("eth0", "enp1s0")], created_ifaces := [] }
    { map := [("eth0", "enp1s0")], created_ifaces := ["eth0"] } "eth0" rfl

end Nmrpc

namespace Nmrpc

/-- The lexicographic comparison of character lists is total. -/
theorem charListLe_total : ∀ as bs : List Char,
    charListLe as bs = true ∨ charListLe bs as = true
  | [], [] => .inl rfl
  | [], _ :: _ => .inl rfl
  | _ :: _, [] => .inr rfl
  | a :: as, b :: bs => by
    rcases lt_trichotomy a b with h | h | h
    · left; simp [charListLe, h]
    · subst h
      rcases charListLe_total as bs with ih | ih
      · left; simp [charListLe, lt_irrefl, ih]
      · right; simp [charListLe, lt_irrefl, ih]
    · right; simp [charListLe, h]

/-- The lexicographic comparison of character lists is transitive. -/
theorem charListLe_trans : ∀ as bs cs : List Char,
    charListLe as bs = true → charListLe bs cs = true → charListLe as cs = true
  | [], _, _ => fun _ _ => rfl
  | _ :: _, [], _ => fun h _ => by simp [charListLe] at h
  | _ :: _, _ :: _, [] => fun _ h => by simp [charListLe] at h
  | a :: as, b :: bs, c :: cs => fun h1 h2 => by
    simp only [charListLe] at h1 h2 ⊢
    rcases lt_trichotomy a b with hab | hab | hab
    · rcases lt_trichotomy b c with hbc | hbc | hbc
      · simp [lt_trans hab hbc]
      · subst hbc; simp [hab]
      · simp [asymm hbc, hbc] at h2
    · subst hab
      rcases lt_trichotomy a c with hac | hac | hac
      · simp [hac]
      · subst hac
        simp only [lt_irrefl, if_false] at h1 h2 ⊢
        exact charListLe_trans as bs cs h1 h2
      · simp [asymm hac, hac] at h2
    · simp [asymm hab, hab] at h1

instance : IsTotal String strLeRel :=
  ⟨fun a b => charListLe_total a.data b.data⟩

instance : IsTrans String strLeRel :=
  ⟨fun a b c => charListLe_trans a.data b.data c.data⟩

/-- C9: discovery determinism — for every device list, the default mapping's
device column is a permutation of the Ethernet-class device identifiers,
sorted by the lexicographic string order, and its key column is
`eth0, eth1, …` in order; in particular devices `enp3s0` and `enp1s0`
produce the mapping `eth0 -> enp1s0, eth1 -> enp3s0`. -/
theorem discovery_deterministic (devices : List Device) :
    ((get_deafult_mapping devices).map Prod.snd).Perm
      (devices.filterMap (fun d => if d.dtype = "Ethernet" then some d.name else none)) ∧
    List.Sorted strLeRel ((get_deafult_mapping devices).map Prod.snd) ∧
    (get_deafult_mapping devices).map Prod.fst =
      (List.range (get_ether_devices devices).length).map (fun i => "eth" ++ toString i) ∧
    get_deafult_mapping
        [{ dtype := "Ethernet", name := "enp3s0" }, { dtype := "Ethernet", name := "enp1s0" }] =
      [("eth0", "enp1s0"), ("eth1", "enp3s0")] := by
  have hsnd : (get_deafult_mapping devices).map Prod.snd = get_ether_devices devices := by
    unfold get_deafult_mapping
    rw [List.map_map]
    have hcomp : (Prod.snd ∘ fun p : Nat × String => ("eth" ++ toString p.fst, p.snd)) =
        (Prod.snd : Nat × String → String) := rfl
    rw [hcomp, List.enum_map_snd]
  refine ⟨?_, ?_, ?_, ?_⟩
  · rw [hsnd]
    exact List.perm_insertionSort strLeRel _
  · rw [hsnd]
    exact List.sorted_insertionSort strLeRel _
  · unfold get_deafult_mapping
    rw [List.map_map]
    have hcomp : (Prod.fst ∘ fun p : Nat × String => ("eth" ++ toString p.fst, p.snd)) =
        ((fun i => "eth" ++ toString i) ∘ (Prod.fst : Nat × String → Nat)) := rfl
    rw [hcomp, ← List.map_map, List.enum_map_fst]
  · decide

end Nmrpc

namespace Nmrpc

/-- Looking a key up after `store` rewrote the stored connection under
`name`: the found pair becomes `(name, conn)` when a pair with that key was
present. -/
theorem find_store_self : ∀ (l : List (String × RemoteConnection)) (name : String)
    (conn : RemoteConnection),
    (List.find? (fun p => p.fst = name) l).isSome = true →
    List.find? (fun p => p.fst = name)
        (l.map (fun p => if p.fst = name then (p.fst, conn) else p)) =
      some (name, conn)
  | [], _, _ => by simp
  | hd :: tl, name, conn => fun h => by
    rw [List.map_cons]
    by_cases hhd : hd.fst = name
    · rw [if_pos hhd, List.find?_cons_of_pos _ (by simp [hhd]), hhd]
    · rw [if_neg hhd, List.find?_cons_of_neg _ (by simp [hhd])]
      apply find_store_self tl name conn
      rw [List.find?_cons_of_neg _ (by simp [hhd])] at h
      exact h

/-- `store` under `name` does not disturb lookups of a different key. -/
theorem find_store_other : ∀ (l : List (String × RemoteConnection)) (name other : String)
    (conn : RemoteConnection), other ≠ name →
    List.find? (fun p => p.fst = other)
        (l.map (fun p => if p.fst = name then (p.fst, conn) else p)) =
      List.find? (fun p => p.fst = other) l
  | [], _, _, _ => fun _ => rfl
  | hd :: tl, name, other, conn => fun hne => by
    rw [List.map_cons]
    by_cases hn : hd.fst = name
    · have ho : ¬ hd.fst = other := fun hh => hne (by rw [← hh, hn])
      rw [if_pos hn, List.find?_cons_of_neg _ (by simp [ho]),
        List.find?_cons_of_neg _ (by simp [ho])]
      exact find_store_other tl name other conn hne
    · rw [if_neg hn]
      by_cases ho : hd.fst = other
      · rw [List.find?_cons_of_pos _ (by simp [ho]), List.find?_cons_of_pos _ (by simp [ho])]
      · rw [List.find?_cons_of_neg _ (by simp [ho]), List.find?_cons_of_neg _ (by simp [ho])]
        exact find_store_other tl name other conn hne

theorem store_connection_by_id_self (client : Client) (name : String) (conn : RemoteConnection)
    (h : (client.connection_by_id name).isSome = true) :
    (client.store name conn).connection_by_id name = some conn := by
  unfold Client.connection_by_id at h ⊢
  unfold Client.store
  rw [find_store_self client.connections name conn (by simpa using h)]
  rfl

theorem store_connection_by_id_other (client : Client) (name other : String)
    (conn : RemoteConnection) (h : other ≠ name) :
    (client.store name conn).connection_by_id other = client.connection_by_id other := by
  unfold Client.connection_by_id Client.store
  rw [find_store_other client.connections name other conn h]

/-- C3 counterexample: on a manager with no connection named "eth0", `save`
of a config for "eth0" issues no commit, creates nothing, consults no
registry, and silently returns success — against the claim that the
connection is created via the InterfaceRegistry and exactly one commit is
issued. -/
theorem save_skips_missing_connection :
    save { name := "eth0", ipv4cfg := none, ipv6cfg := none } { connections := [] } =
      { client := { connections := [] }, commits := 0 } := rfl

/-- C3 (amended): `save` looks the connection up by id directly on the
manager client (no InterfaceRegistry, no creation of a missing connection).
When a connection with the config's name exists, it applies the v4 settings,
then the v6 settings, and issues exactly one commit of that connection, and
connections under other names are untouched; when none exists it performs no
mutation, issues no commit, and returns success.  Either way no connection
is added or removed. -/
theorem save_direct_lookup_single_commit (cfg : NetworkConfig) (client : Client) :
    ((save cfg client).commits ≤ 1) ∧
    ((save cfg client).client.connections.length = client.connections.length) ∧
    (∀ conn, client.connection_by_id cfg.name = some conn →
      (save cfg client).commits = 1 ∧
      (save cfg client).client.connection_by_id cfg.name =
        some (handle_ipv6 cfg (handle_ipv4 cfg conn))) ∧
    (client.connection_by_id cfg.name = none →
      save cfg client = { client := client, commits := 0 }) ∧
    (∀ other, other ≠ cfg.name →
      (save cfg client).client.connection_by_id other = client.connection_by_id other) := by
  refine ⟨?_, ?_, ?_, ?_, ?_⟩
  · cases hl : client.connection_by_id cfg.name <;> simp [save, hl]
  · cases hl : client.connection_by_id cfg.name <;>
      simp [save, hl, Client.store]
  · intro conn hl
    refine ⟨by simp [save, hl], ?_⟩
    simp only [save, hl]
    exact store_connection_by_id_self client cfg.name _ (by simp [hl])
  · intro hl
    simp [save, hl]
  · intro other hother
    cases hl : client.connection_by_id cfg.name with
    | none => simp [save, hl]
    | some conn =>
      simp only [save, hl]
      exact store_connection_by_id_other client cfg.name other _ hother

/-- Witness for C3's amended theorem at a concrete client that does hold a
connection named "eth0": the save commits exactly once and stores the
reconciled connection. -/
theorem save_direct_lookup_single_commit_witness :
    (save { name := "eth0", ipv4cfg := none, ipv6cfg := none }
        { connections := [("eth0", { ip4 := none, ip6 := none })] }).commits = 1 ∧
    (save { name := "eth0", ipv4cfg := none, ipv6cfg := none }
        { connections := [("eth0", { ip4 := none, ip6 := none })] }).client.connection_by_id
        "eth0" =
      some (handle_ipv6 { name := "eth0", ipv4cfg := none, ipv6cfg := none }
        (handle_ipv4 { name := "eth0", ipv4cfg := none, ipv6cfg := none }
          { ip4 := none, ip6 := none })) :=
  (save_direct_lookup_single_commit { name := "eth0", ipv4cfg := none, ipv6cfg := none }
    { connections := [("eth0", { ip4 := none, ip6 := none })] }).2.2.1
    { ip4 := none, ip6 := none } rfl

end Nmrpc
